import Mathlib

/-
Verification of the Salesforce-MCP debug-log orchestrator and record-query
adapter against their natural-language specification.

The Python sources are shallowly embedded: every remote HTTP interaction is
abstracted into an `Env` of oracle answers (what each query returns, whether
each mutating call succeeds), and each embedded function returns both its
result string and the ordered list of remote `Effect`s it issued.  Clock
reads (`datetime.now`, `utcnow`) are the abstract instant `Env.now` measured
in seconds; ISO-8601 parsing (`datetime.fromisoformat`) and `strftime`
rendering are the oracle functions `Env.parseIso`, `Env.parseErr` and
`Env.formatTime`.  Python exceptions are `Except.error`; a `try/except`
block is a `match` on that value.
-/

namespace SalesforceMCP

/-- A User record as returned by the user-resolution SOQL queries in
`manage_debug_logs` (fields Id, Username, Name, IsActive). -/
structure SFUser where
  id : String
  username : String
  name : String
  isActive : Bool
deriving Repr, DecidableEq

/-- A TraceFlag record as returned by the tooling-API trace-flag query
(fields Id, DebugLevelId, ExpirationDate).  `expirationDate` is the raw
string of the response; `none` models a missing field
(`trace_flag.get("ExpirationDate")` returning `None`). -/
structure SFTraceFlag where
  id : String
  debugLevelId : String
  expirationDate : Option String
deriving Repr, DecidableEq

/-- An ApexLog record as returned by the log queries.  Fields read through
`log.get(..., "N/A")` are options; `Id` and `LastModifiedDate` are accessed
with brackets and so are required. -/
structure ApexLog where
  id : String
  operationName : Option String
  application : Option String
  status : Option String
  logLength : Option String
  lastModifiedDate : String
deriving Repr, DecidableEq

/-- The JSON body of the PATCH issued to a TraceFlag: a field is `some`
exactly when the corresponding key is present in the `update_data` dict. -/
structure TraceFlagPatch where
  expirationDate : Option Int
  debugLevelId : Option String
  logType : Option String
  startDate : Option Int
deriving Repr, DecidableEq

/-- The JSON body of the POST that creates a TraceFlag
(`trace_flag_data` in the source). -/
structure TraceFlagCreate where
  tracedEntityId : String
  debugLevelId : String
  logType : String
  startDate : Int
  expirationDate : Int
deriving Repr, DecidableEq

/-- One remote HTTP request issued by the orchestrator, in issue order.
Query constructors are reads; the create/patch/delete constructors are the
mutating requests. -/
inductive Effect where
  | queryUsersPrimary
  | queryUsersFallback
  | queryTraceFlags
  | queryDebugLevels
  | createDebugLevel (logLevel : String)
  | createTraceFlag (data : TraceFlagCreate)
  | patchTraceFlag (traceFlagId : String) (data : TraceFlagPatch)
  | deleteTraceFlag (traceFlagId : String)
  | queryLogById (logId : String)
  | fetchLogBody (logId : String)
  | queryLogs (limit : Int)
deriving Repr, DecidableEq

/-- Whether the request mutates remote state (POST, PATCH or DELETE). -/
def Effect.isMutation : Effect → Bool
  | .createDebugLevel _ => true
  | .createTraceFlag _ => true
  | .patchTraceFlag _ _ => true
  | .deleteTraceFlag _ => true
  | _ => false

/-- Whether the request is a TraceFlag creation. -/
def Effect.isCreateTF : Effect → Bool
  | .createTraceFlag _ => true
  | _ => false

/-- Whether the request is a TraceFlag deletion or patch. -/
def Effect.isDeleteOrPatchTF : Effect → Bool
  | .deleteTraceFlag _ => true
  | .patchTraceFlag _ _ => true
  | _ => false

/-! Closed evaluation facts for the request predicates, one per
constructor, so rewriting never has to unfold the predicates under a
binder. -/

@[simp] theorem isCreateTF_queryUsersPrimary :
    Effect.queryUsersPrimary.isCreateTF = false := rfl
@[simp] theorem isCreateTF_queryUsersFallback :
    Effect.queryUsersFallback.isCreateTF = false := rfl
@[simp] theorem isCreateTF_queryTraceFlags :
    Effect.queryTraceFlags.isCreateTF = false := rfl
@[simp] theorem isCreateTF_queryDebugLevels :
    Effect.queryDebugLevels.isCreateTF = false := rfl
@[simp] theorem isCreateTF_createDebugLevel (s : String) :
    (Effect.createDebugLevel s).isCreateTF = false := rfl
@[simp] theorem isCreateTF_createTraceFlag (d : TraceFlagCreate) :
    (Effect.createTraceFlag d).isCreateTF = true := rfl
@[simp] theorem isCreateTF_patchTraceFlag (i : String) (d : TraceFlagPatch) :
    (Effect.patchTraceFlag i d).isCreateTF = false := rfl
@[simp] theorem isCreateTF_deleteTraceFlag (i : String) :
    (Effect.deleteTraceFlag i).isCreateTF = false := rfl
@[simp] theorem isCreateTF_queryLogById (i : String) :
    (Effect.queryLogById i).isCreateTF = false := rfl
@[simp] theorem isCreateTF_fetchLogBody (i : String) :
    (Effect.fetchLogBody i).isCreateTF = false := rfl
@[simp] theorem isCreateTF_queryLogs (n : Int) :
    (Effect.queryLogs n).isCreateTF = false := rfl

@[simp] theorem isMutation_queryUsersPrimary :
    Effect.queryUsersPrimary.isMutation = false := rfl
@[simp] theorem isMutation_queryUsersFallback :
    Effect.queryUsersFallback.isMutation = false := rfl
@[simp] theorem isMutation_queryTraceFlags :
    Effect.queryTraceFlags.isMutation = false := rfl
@[simp] theorem isMutation_queryDebugLevels :
    Effect.queryDebugLevels.isMutation = false := rfl
@[simp] theorem isMutation_createDebugLevel (s : String) :
    (Effect.createDebugLevel s).isMutation = true := rfl
@[simp] theorem isMutation_createTraceFlag (d : TraceFlagCreate) :
    (Effect.createTraceFlag d).isMutation = true := rfl
@[simp] theorem isMutation_patchTraceFlag (i : String) (d : TraceFlagPatch) :
    (Effect.patchTraceFlag i d).isMutation = true := rfl
@[simp] theorem isMutation_deleteTraceFlag (i : String) :
    (Effect.deleteTraceFlag i).isMutation = true := rfl
@[simp] theorem isMutation_queryLogById (i : String) :
    (Effect.queryLogById i).isMutation = false := rfl
@[simp] theorem isMutation_fetchLogBody (i : String) :
    (Effect.fetchLogBody i).isMutation = false := rfl
@[simp] theorem isMutation_queryLogs (n : Int) :
    (Effect.queryLogs n).isMutation = false := rfl

@[simp] theorem isDPTF_queryUsersPrimary :
    Effect.queryUsersPrimary.isDeleteOrPatchTF = false := rfl
@[simp] theorem isDPTF_queryUsersFallback :
    Effect.queryUsersFallback.isDeleteOrPatchTF = false := rfl
@[simp] theorem isDPTF_queryTraceFlags :
    Effect.queryTraceFlags.isDeleteOrPatchTF = false := rfl
@[simp] theorem isDPTF_queryDebugLevels :
    Effect.queryDebugLevels.isDeleteOrPatchTF = false := rfl
@[simp] theorem isDPTF_createDebugLevel (s : String) :
    (Effect.createDebugLevel s).isDeleteOrPatchTF = false := rfl
@[simp] theorem isDPTF_createTraceFlag (d : TraceFlagCreate) :
    (Effect.createTraceFlag d).isDeleteOrPatchTF = false := rfl
@[simp] theorem isDPTF_patchTraceFlag (i : String) (d : TraceFlagPatch) :
    (Effect.patchTraceFlag i d).isDeleteOrPatchTF = true := rfl
@[simp] theorem isDPTF_deleteTraceFlag (i : String) :
    (Effect.deleteTraceFlag i).isDeleteOrPatchTF = true := rfl
@[simp] theorem isDPTF_queryLogById (i : String) :
    (Effect.queryLogById i).isDeleteOrPatchTF = false := rfl
@[simp] theorem isDPTF_fetchLogBody (i : String) :
    (Effect.fetchLogBody i).isDeleteOrPatchTF = false := rfl
@[simp] theorem isDPTF_queryLogs (n : Int) :
    (Effect.queryLogs n).isDeleteOrPatchTF = false := rfl

/-- The oracle for every external interaction of one `manage_debug_logs`
call: what the remote service answers to each request the code can issue,
plus the clock and the datetime library.  An `Except.error e` answer models
the Python call raising an exception rendered as the string `e`
(`raise_for_status`, connection failures, parse errors). -/
structure Env where
  /-- Outcome of `get_connection()`. -/
  connection : Except String Unit
  /-- The current instant, in seconds: `datetime.datetime.now()` /
  `utcnow()` at the time of the call. -/
  now : Int
  /-- `datetime.fromisoformat (s.replace("Z", "+00:00"))`: `some t` when the
  string parses to instant `t`, `none` when it raises. -/
  parseIso : String → Option Int
  /-- The message of the exception `fromisoformat` raises on input `s`. -/
  parseErr : String → String
  /-- `strftime("%Y-%m-%d %H:%M:%S")` of an instant. -/
  formatTime : Int → String
  /-- Records of the first user query (by exact username, or name LIKE). -/
  userQueryPrimary : Except String (List SFUser)
  /-- Records of the broader fallback query (name OR username LIKE). -/
  userQueryFallback : Except String (List SFUser)
  /-- Records of the TraceFlag query for the resolved user with
  `ExpirationDate >` now (used by both enable and disable). -/
  traceFlagQuery : Except String (List SFTraceFlag)
  /-- Ids of the DebugLevel records whose ApexCode equals the requested
  log level. -/
  debugLevelQuery : Except String (List String)
  /-- Outcome of the DebugLevel POST: the new record id. -/
  createDebugLevel : Except String String
  /-- Outcome of the TraceFlag POST for a given body: the new record id. -/
  createTraceFlag : TraceFlagCreate → Except String String
  /-- Outcome of a TraceFlag PATCH for a given id and body. -/
  patchTraceFlag : String → TraceFlagPatch → Except String Unit
  /-- Outcome of a TraceFlag DELETE for a given id. -/
  deleteTraceFlag : String → Except String Unit
  /-- Records of the ApexLog query by log id. -/
  logQueryById : String → Except String (List ApexLog)
  /-- Outcome of the ApexLog Body GET: the raw log text. -/
  fetchLogBody : String → Except String String
  /-- Records of the ApexLog query by user, most recent first. -/
  logsQuery : Except String (List ApexLog)

/-- The outer exception handler's rendering: `"Error managing debug logs: {e}"`. -/
def errMain (e : String) : String := "Error managing debug logs: " ++ e

/-- The not-found message after both user queries return no record. -/
def notFoundMsg (username : String) : String :=
  "Error: No user found matching '" ++ username ++
    "'. Please verify the username or full name and try again."

/-- One line of the disambiguation listing: `"- {Name} ({Username})\n"`. -/
def disambigLine (u : SFUser) : String :=
  "- " ++ u.name ++ " (" ++ u.username ++ ")\n"

/-- The disambiguation listing returned when the fallback query matches
more than one user. -/
def disambigMsg (username : String) (users : List SFUser) : String :=
  "Multiple users found matching '" ++ username ++
    "'. Please specify which user by providing the exact username:\n\n" ++
    String.join (users.map disambigLine)

/-- The warning returned when the picked user record has IsActive false. -/
def inactiveWarning (username : String) : String :=
  "Warning: User '" ++ username ++
    "' exists but is inactive. Debug logs may not be generated for inactive users."

/-- Result of the user-resolution block (source lines 95-151): an exception,
an early `return`, or a resolved user record. -/
inductive Resolution where
  | raised (e : String)
  | finished (msg : String)
  | resolved (u : SFUser)
deriving Repr, DecidableEq

/-- Lines 148-151: take the first record and return the inactive warning
when its IsActive is false. -/
def pickUser (username : String) (u : SFUser) : Resolution :=
  if u.isActive then .resolved u else .finished (inactiveWarning username)

/-- User resolution, lines 95-151 of `manage_debug_logs`: run the primary
query; when it returns no record, run the broader fallback query, report
not-found on zero records and the disambiguation listing on more than one;
then pick the first record of whichever query produced records and check
IsActive.  Note the more-than-one check sits inside the fallback branch
only: a primary query with several records proceeds with the first. -/
def resolveUser (env : Env) (username : String) : List Effect × Resolution :=
  match env.userQueryPrimary with
  | .error e => ([.queryUsersPrimary], .raised e)
  | .ok [] =>
    match env.userQueryFallback with
    | .error e => ([.queryUsersPrimary, .queryUsersFallback], .raised e)
    | .ok [] =>
      ([.queryUsersPrimary, .queryUsersFallback], .finished (notFoundMsg username))
    | .ok [u] => ([.queryUsersPrimary, .queryUsersFallback], pickUser username u)
    | .ok (u1 :: u2 :: rest) =>
      ([.queryUsersPrimary, .queryUsersFallback],
        .finished (disambigMsg username (u1 :: u2 :: rest)))
  | .ok (u :: _) => ([.queryUsersPrimary], pickUser username u)

/-- Lines 234-247: the new expiration of an existing flag — 30 seconds past
its current expiration, or 30 seconds from now when the field is missing,
empty (falsy) or fails to parse. -/
def newExpirationOf (env : Env) (tf : SFTraceFlag) : Int :=
  match tf.expirationDate with
  | none => env.now + 30
  | some s =>
    if s = "" then env.now + 30
    else
      match env.parseIso s with
      | some t => t + 30
      | none => env.now + 30

/-- The "updated" report of the enable branch (line 265). -/
def updatedMsg (username logLevel expStr tfId : String) : String :=
  "Successfully updated debug log expiration for user '" ++ username ++
    "'.\n\n**Log Level:** " ++ logLevel ++ "\n**New Expiration:** " ++ expStr ++
    "\n**Trace Flag ID:** " ++ tfId ++ "\n"

/-- The "enabled" report of the enable branch (lines 287-292); reached only
from the creation path, so the trace-flag id is always bound. -/
def enabledMsg (username logLevel expStr : String) (expirationTime : Int)
    (tfId : String) : String :=
  "Successfully enabled debug logs for user '" ++ username ++
    "'.\n\n**Log Level:** " ++ logLevel ++ "\n**Expiration:** " ++ expStr ++
    " (" ++ toString expirationTime ++ " minutes from now)\n**Trace Flag ID:** " ++
    tfId ++ "\n"

/-- Lines 183-224: find a DebugLevel whose ApexCode equals the requested
level, creating one (every category set to the level) when none exists. -/
def resolveDebugLevel (env : Env) (logLevel : String) :
    List Effect × Except String String :=
  match env.debugLevelQuery with
  | .error e => ([.queryDebugLevels], .error e)
  | .ok (dlid :: _) => ([.queryDebugLevels], .ok dlid)
  | .ok [] =>
    match env.createDebugLevel with
    | .error e => ([.queryDebugLevels, .createDebugLevel logLevel], .error e)
    | .ok dlid => ([.queryDebugLevels, .createDebugLevel logLevel], .ok dlid)

/-- The enable branch, lines 154-292: query unexpired flags, resolve the
debug level, then either patch the first existing flag (ExpirationDate and
DebugLevelId only) or create one new flag. -/
def enableOp (env : Env) (username logLevel : String) (expirationTime : Int)
    (u : SFUser) : List Effect × Except String String :=
  match env.traceFlagQuery with
  | .error e => ([.queryTraceFlags], .error e)
  | .ok flags =>
    let expirationDate := env.now + 60 * expirationTime
    match resolveDebugLevel env logLevel with
    | (dEffs, .error e) => (.queryTraceFlags :: dEffs, .error e)
    | (dEffs, .ok debugLevelId) =>
      match flags with
      | tf :: _ =>
        let newExp := newExpirationOf env tf
        let patch : TraceFlagPatch :=
          { expirationDate := some newExp, debugLevelId := some debugLevelId,
            logType := none, startDate := none }
        let effs := .queryTraceFlags :: dEffs ++ [.patchTraceFlag tf.id patch]
        match env.patchTraceFlag tf.id patch with
        | .error e => (effs, .error e)
        | .ok _ =>
          (effs, .ok (updatedMsg username logLevel (env.formatTime newExp) tf.id))
      | [] =>
        let data : TraceFlagCreate :=
          { tracedEntityId := u.id, debugLevelId := debugLevelId,
            logType := "USER_DEBUG", startDate := env.now,
            expirationDate := expirationDate }
        let effs := .queryTraceFlags :: dEffs ++ [.createTraceFlag data]
        match env.createTraceFlag data with
        | .error e => (effs, .error e)
        | .ok tfId =>
          (effs, .ok (enabledMsg username logLevel (env.formatTime expirationDate)
            expirationTime tfId))

/-- The no-active-logs message of the disable branch (line 316). -/
def noActiveLogsMsg (username : String) : String :=
  "No active debug logs found for user '" ++ username ++ "'."

/-- Disable report when every DELETE succeeded (line 333). -/
def disabledRemovedMsg (n : Nat) (username : String) : String :=
  "Successfully disabled " ++ toString n ++
    " debug log configuration(s) for user '" ++ username ++ "' by removing them."

/-- Disable report when the PATCH fallback succeeded (line 366). -/
def disabledExpireMsg (n : Nat) (username : String) : String :=
  "Successfully disabled " ++ toString n ++
    " debug log configuration(s) for user '" ++ username ++
    "'. They will expire in 5 minutes."

/-- The disable branch's final error rendering (line 369), built from the
original deletion error. -/
def errDisable (e : String) : String := "Error disabling debug logs: " ++ e

/-- Lines 324-331: delete the flags one by one; the first raising DELETE
aborts the loop.  Returns the issued requests and the success count (or the
raised error). -/
def deleteLoop (env : Env) : List String → List Effect × Except String Nat
  | [] => ([], .ok 0)
  | tfId :: rest =>
    match env.deleteTraceFlag tfId with
    | .error e => ([.deleteTraceFlag tfId], .error e)
    | .ok _ =>
      match deleteLoop env rest with
      | (effs, .ok n) => (.deleteTraceFlag tfId :: effs, .ok (n + 1))
      | (effs, .error e) => (.deleteTraceFlag tfId :: effs, .error e)

/-- Lines 350-364: the fallback loop patching each flag's expiration; the
first raising PATCH aborts the loop. -/
def patchLoop (env : Env) (p : TraceFlagPatch) :
    List String → List Effect × Except String Nat
  | [] => ([], .ok 0)
  | tfId :: rest =>
    match env.patchTraceFlag tfId p with
    | .error e => ([.patchTraceFlag tfId p], .error e)
    | .ok _ =>
      match patchLoop env p rest with
      | (effs, .ok n) => (.patchTraceFlag tfId p :: effs, .ok (n + 1))
      | (effs, .error e) => (.patchTraceFlag tfId p :: effs, .error e)

/-- The disable branch, lines 294-369: query unexpired flags; none means
the no-active-logs message; otherwise delete them all, and on any deletion
failure fall back to patching every originally-found flag's expiration to
5 minutes from now, surfacing the deletion error when that also fails. -/
def disableOp (env : Env) (username : String) : List Effect × Except String String :=
  match env.traceFlagQuery with
  | .error e => ([.queryTraceFlags], .error e)
  | .ok [] => ([.queryTraceFlags], .ok (noActiveLogsMsg username))
  | .ok flags =>
    let ids := flags.map SFTraceFlag.id
    match deleteLoop env ids with
    | (dEffs, .ok n) =>
      (.queryTraceFlags :: dEffs, .ok (disabledRemovedMsg n username))
    | (dEffs, .error deleteErr) =>
      let p : TraceFlagPatch :=
        { expirationDate := some (env.now + 300), debugLevelId := none,
          logType := none, startDate := none }
      match patchLoop env p ids with
      | (pEffs, .ok n) =>
        (.queryTraceFlags :: dEffs ++ pEffs, .ok (disabledExpireMsg n username))
      | (pEffs, .error _) =>
        (.queryTraceFlags :: dEffs ++ pEffs, .ok (errDisable deleteErr))

/-- The not-found message of the single-log retrieval (line 397). -/
def noLogFoundMsg (logId : String) : String :=
  "No log found with ID '" ++ logId ++ "'."

/-- Rendering of the single-log block's inner exception handler (line 457). -/
def errRetrieveLog (e : String) : String := "Error retrieving log: " ++ e

/-- Rendering of the body-fetch exception handler (line 436). -/
def errRetrieveBody (e : String) : String := "Error retrieving log body: " ++ e

/-- The shared metadata lines of the single-log reports (lines 419-426 and
443-450). -/
def logDetailLines (log : ApexLog) (dateStr : String) : String :=
  "**Log Details:**\n\n- **ID:** " ++ log.id ++
    "\n- **Operation:** " ++ log.operationName.getD "N/A" ++
    "\n- **Application:** " ++ log.application.getD "N/A" ++
    "\n- **Status:** " ++ log.status.getD "N/A" ++
    "\n- **Size:** " ++ log.logLength.getD "N/A" ++
    " bytes\n- **Date:** " ++ dateStr ++ "\n"

/-- The single-log report with the raw body appended (lines 419-432). -/
def logDetailsWithBody (log : ApexLog) (dateStr body : String) : String :=
  logDetailLines log dateStr ++ "\n**Log Body:**\n```\n" ++ body ++ "\n```\n"

/-- The metadata-only single-log report (lines 443-453). -/
def logDetailsMeta (log : ApexLog) (dateStr : String) : String :=
  logDetailLines log dateStr ++
    "\nTo view the full log content, add \"include_body\": true to your request.\n"

/-- `fromisoformat` on the record's LastModifiedDate followed by
`strftime`; an error is the raised ValueError's text. -/
def formatLogDate (env : Env) (log : ApexLog) : Except String String :=
  match env.parseIso log.lastModifiedDate with
  | some t => .ok (env.formatTime t)
  | none => .error (env.parseErr log.lastModifiedDate)

/-- Lines 376-457, the single-log retrieval: its whole body sits in a try
whose handler renders "Error retrieving log: ...", and the body-fetch path
sits in an inner try rendering "Error retrieving log body: ..." — so this
block never raises. -/
def retrieveById (env : Env) (logId : String) (includeBody : Bool) :
    List Effect × String :=
  match env.logQueryById logId with
  | .error e => ([.queryLogById logId], errRetrieveLog e)
  | .ok [] => ([.queryLogById logId], noLogFoundMsg logId)
  | .ok (log :: _) =>
    if includeBody then
      match env.fetchLogBody log.id with
      | .error e => ([.queryLogById logId, .fetchLogBody log.id], errRetrieveBody e)
      | .ok body =>
        match formatLogDate env log with
        | .error e =>
          ([.queryLogById logId, .fetchLogBody log.id], errRetrieveBody e)
        | .ok dateStr =>
          ([.queryLogById logId, .fetchLogBody log.id],
            logDetailsWithBody log dateStr body)
    else
      match formatLogDate env log with
      | .error e => ([.queryLogById logId], errRetrieveLog e)
      | .ok dateStr => ([.queryLogById logId], logDetailsMeta log dateStr)

/-- The empty-result message of the per-user log listing (line 480). -/
def noLogsFoundMsg (username : String) : String :=
  "No debug logs found for user '" ++ username ++ "'."

/-- The header of the per-user log listing (lines 483-485). -/
def foundLogsHeader (n : Nat) (username : String) : String :=
  "Found " ++ toString n ++ " debug logs for user '" ++ username ++ "':\n\n"

/-- One block of the per-user log listing (lines 492-500), for the log at
zero-based index `i`. -/
def logBlock (i : Nat) (log : ApexLog) (dateStr : String) : String :=
  "**Log " ++ toString (i + 1) ++ "**\n- **ID:** " ++ log.id ++
    "\n- **Operation:** " ++ log.operationName.getD "N/A" ++
    "\n- **Application:** " ++ log.application.getD "N/A" ++
    "\n- **Status:** " ++ log.status.getD "N/A" ++
    "\n- **Size:** " ++ log.logLength.getD "N/A" ++
    " bytes\n- **Date:** " ++ dateStr ++ "\n\n"

/-- The closing hint of the per-user log listing (lines 503-512). -/
def retrieveHint : String :=
  "To view a specific log with full content, use:\n```json\n\x7b\n  \"operation\": \"retrieve\",\n  \"username\": \"username@example.com\",\n  \"log_id\": \"<LOG_ID>\",\n  \"include_body\": true\n\x7d\n```\n"

/-- The listing's formatting loop (lines 487-500); a date that fails to
parse raises out of the loop (there is no local handler on this path). -/
def renderLogBlocks (env : Env) : Nat → List ApexLog → Except String String
  | _, [] => .ok ""
  | i, log :: rest =>
    match formatLogDate env log with
    | .error e => .error e
    | .ok dateStr =>
      match renderLogBlocks env (i + 1) rest with
      | .error e => .error e
      | .ok s => .ok (logBlock i log dateStr ++ s)

/-- Lines 459-513, the per-user log listing: query up to `limit` logs and
render each as a metadata block followed by the usage hint. -/
def retrieveLogs (env : Env) (username : String) (limit : Int) :
    List Effect × Except String String :=
  match env.logsQuery with
  | .error e => ([.queryLogs limit], .error e)
  | .ok [] => ([.queryLogs limit], .ok (noLogsFoundMsg username))
  | .ok logs =>
    match renderLogBlocks env 0 logs with
    | .error e => ([.queryLogs limit], .error e)
    | .ok blocks =>
      ([.queryLogs limit],
        .ok (foundLogsHeader logs.length username ++ blocks ++ retrieveHint))

/-- The retrieve branch, lines 371-513: a truthy log id selects the
single-log retrieval, anything else the per-user listing. -/
def retrieveOp (env : Env) (username : String) (limit : Int)
    (logId : Option String) (includeBody : Bool) :
    List Effect × Except String String :=
  match logId with
  | some lid =>
    if lid = "" then retrieveLogs env username limit
    else
      match retrieveById env lid includeBody with
      | (effs, s) => (effs, .ok s)
  | none => retrieveLogs env username limit

/-- `log_level` is falsy: absent or the empty string. -/
def logLevelMissing : Option String → Bool
  | none => true
  | some s => s = ""

/-- The validation message of line 86. -/
def logLevelRequiredMsg : String :=
  "Error: Log level is required for 'enable' operation. Valid options: NONE, ERROR, WARN, INFO, DEBUG, FINE, FINER, FINEST"

/-- The invalid-operation message of line 518. -/
def invalidOpMsg (operationArg : String) : String :=
  "Invalid operation: '" ++ operationArg ++
    "'. Must be one of: enable, disable, retrieve"

/-- Python's `value or d` on an optional integer: `None` and `0` are falsy
and give the default. -/
def orDefault (v : Option Int) (d : Int) : Int :=
  match v with
  | none => d
  | some n => if n = 0 then d else n

/-- The operation dispatch of lines 154-518, after user resolution. -/
def dispatchOp (env : Env) (operationArg username : String)
    (logLevel : Option String) (expirationTime : Option Int)
    (limit : Option Int) (logId : Option String) (includeBody : Bool)
    (u : SFUser) : List Effect × Except String String :=
  if operationArg = "enable" then
    enableOp env username (logLevel.getD "") (orDefault expirationTime 30) u
  else if operationArg = "disable" then
    disableOp env username
  else if operationArg = "retrieve" then
    retrieveOp env username (orDefault limit 10) logId includeBody
  else
    ([], .ok (invalidOpMsg operationArg))

/-- The whole of `manage_debug_logs` (src/tools/manage_debug_logs.py):
validate the username and log level, get the connection, resolve the user,
dispatch the operation, and catch every uncaught exception at the boundary
as "Error managing debug logs: ...".  Returns the final string together
with the ordered remote requests issued. -/
def manage_debug_logs (env : Env) (operationArg username : String)
    (logLevel : Option String) (expirationTime : Option Int)
    (limit : Option Int) (logId : Option String) (includeBody : Bool) :
    List Effect × String :=
  if username = "" then ([], "Error: Username is required")
  else if operationArg = "enable" ∧ logLevelMissing logLevel = true then
    ([], logLevelRequiredMsg)
  else
    match env.connection with
    | .error e => ([], errMain e)
    | .ok _ =>
      match resolveUser env username with
      | (effs, .raised e) => (effs, errMain e)
      | (effs, .finished msg) => (effs, msg)
      | (effs, .resolved u) =>
        match dispatchOp env operationArg username logLevel expirationTime
            limit logId includeBody u with
        | (effs2, .ok s) => (effs ++ effs2, s)
        | (effs2, .error e) => (effs ++ effs2, errMain e)

/-! ### The record-query adapter (src/tools/query_records.py) and its
tool-layer wrapper `query_salesforce_records` (src/server.py). -/

/-- A JSON value of a query response record.  Numbers are modelled as
integers (the adapter only stringifies them). -/
inductive JValue where
  | null
  | b (v : Bool)
  | i (v : Int)
  | s (v : String)
  | obj (fields : List (String × JValue))

/-- `dict.get key` on a record. -/
def jGet (r : List (String × JValue)) (field : String) : Option JValue :=
  match r with
  | [] => none
  | (k, v) :: rest => if k = field then some v else jGet rest field

/-- The dotted-path walk of lines 122-130: starting from the record, follow
each part with `value.get(part, "")`, collapsing to the empty string as
soon as the current value is not a dict. -/
def walkPath : JValue → List String → JValue
  | v, [] => v
  | .obj fields, part :: rest => walkPath ((jGet fields part).getD (.s "")) rest
  | _, _ :: _ => .s ""

/-- Python's `str` on the scalar values a cell can hold (`str(True)` is
capitalised). -/
def pyStr : JValue → String
  | .null => "None"
  | .b true => "True"
  | .b false => "False"
  | .i v => toString v
  | .s v => v
  | .obj _ => ""

/-- Cell formatting of lines 135-144: `None` renders empty, booleans and
numbers via `str`, and anything else via `str` with newlines stripped and
pipes escaped. -/
def formatCell : JValue → String
  | .null => ""
  | .b v => pyStr (.b v)
  | .i v => toString v
  | v => ((pyStr v).replace "\n" " ").replace "|" "\\|"

/-- One table row (lines 118-148). -/
def renderRow (fields : List String) (record : List (String × JValue)) : String :=
  let cells := fields.map fun field =>
    if field.contains (Char.ofNat 46) then
      formatCell (walkPath (.obj record) (field.splitOn "."))
    else
      formatCell ((jGet record field).getD (.s ""))
  "| " ++ String.intercalate " | " cells ++ " |\n"

/-- The table header and separator rows (lines 114-115). -/
def tableHead (fields : List String) : String :=
  "| " ++ String.intercalate " | " fields ++ " |\n" ++
    "|" ++ String.intercalate "|"
      (fields.map fun f => String.mk (List.replicate (f.length + 2) (Char.ofNat 45))) ++
    "|\n"

/-- Limit sanitisation of lines 72-80 in the adapter: `None` becomes 10,
below 1 becomes 1, above 2000 becomes 2000. -/
def sanitizeLimit (limit : Option Int) : Int :=
  match limit with
  | none => 10
  | some l => if l < 1 then 1 else if l > 2000 then 2000 else l

/-- The SOQL text built by lines 82-94: literal concatenation of the field
list, object name, truthy WHERE and ORDER BY clauses, and the limit. -/
def buildQuery (objectName : String) (fields : List String)
    (whereClause orderBy : Option String) (limit : Int) : String :=
  let q := "SELECT " ++ String.intercalate ", " fields ++ " FROM " ++ objectName
  let q := match whereClause with
    | some w => if w = "" then q else q ++ " WHERE " ++ w
    | none => q
  let q := match orderBy with
    | some o => if o = "" then q else q ++ " ORDER BY " ++ o
    | none => q
  q ++ " LIMIT " ++ toString limit

/-- The response of `sf.query`: `totalSize` and the record list. -/
structure QueryResult where
  totalSize : Nat
  records : List (List (String × JValue))

/-- The external interactions of one `query_records` call: the shared
connection and the query endpoint. -/
structure QEnv where
  connection : Except String Unit
  runQuery : String → Except String QueryResult

/-- The error rendering shared by the adapter's handler (line 154) and the
tool layer's (line 323). -/
def errQuery (objectName e : String) : String :=
  "Error querying " ++ objectName ++ " records: " ++ e

/-- The whole of `query_records` (src/tools/query_records.py).  The
`get_connection()` call on line 69 stands before the `try` of line 71, so
a connection failure propagates out of the adapter: that is the
`Except.error` result.  Everything inside the try is caught on line 152
and rendered as a string.  The first component lists the SOQL texts the
call handed to `sf.query`, in order. -/
def query_records (env : QEnv) (objectName : String) (fields : List String)
    (whereClause orderBy : Option String) (limit : Option Int) :
    List String × Except String String :=
  match env.connection with
  | .error e => ([], .error e)
  | .ok _ =>
    let lim := sanitizeLimit limit
    let query := buildQuery objectName fields whereClause orderBy lim
    match env.runQuery query with
    | .error e => ([query], .ok (errQuery objectName e))
    | .ok results =>
      if results.records.isEmpty then
        ([query], .ok ("No records found for query: " ++ query))
      else
        ([query],
          .ok ("Query: " ++ query ++ "\n\nFound " ++ toString results.totalSize ++
            " records. Displaying " ++ toString results.records.length ++ ".\n\n" ++
            tableHead fields ++
            String.join (results.records.map (renderRow fields))))

/-- The tool layer's limit clamp (src/server.py lines 312-317): an absent
limit passes through, a present one is clamped to [1, 100]. -/
def clampToolLimit (limit : Option Int) : Option Int :=
  match limit with
  | none => none
  | some l => if l < 1 then some 1 else if l > 100 then some 100 else some l

/-- Python's `str.strip()`: the string without leading and trailing
whitespace (structurally recursive so that it evaluates). -/
def pyStrip (s : String) : String :=
  String.mk
    (((s.toList.dropWhile Char.isWhitespace).reverse.dropWhile
      Char.isWhitespace).reverse)

/-- The whole of `query_salesforce_records` (src/server.py lines 267-323):
validate the object name and field list, clamp the limit, delegate to the
adapter, and catch anything it raises.  The first component lists the SOQL
texts executed on its behalf. -/
def query_salesforce_records (env : QEnv) (objectName : String)
    (fields : List String) (whereClause orderBy : Option String)
    (limit : Option Int) : List String × String :=
  if pyStrip objectName = "" then ([], "Error: Object name is required")
  else if fields.isEmpty then ([], "Error: At least one field must be specified")
  else
    match query_records env objectName fields whereClause orderBy
        (clampToolLimit limit) with
    | (qs, .ok s) => (qs, s)
    | (qs, .error e) => (qs, errQuery objectName e)

/-! ### Concrete fixtures used by witnesses and counterexamples. -/

/-- A benign oracle: connection up, every query empty, every mutation
succeeding, no date string parsable. -/
def baseEnv : Env where
  connection := .ok ()
  now := 1000
  parseIso := fun _ => none
  parseErr := fun s => "Invalid isoformat string: " ++ s
  formatTime := fun t => "<time " ++ toString t ++ ">"
  userQueryPrimary := .ok []
  userQueryFallback := .ok []
  traceFlagQuery := .ok []
  debugLevelQuery := .ok []
  createDebugLevel := .ok "dlNew"
  createTraceFlag := fun _ => .ok "tfNew"
  patchTraceFlag := fun _ _ => .ok ()
  deleteTraceFlag := fun _ => .ok ()
  logQueryById := fun _ => .ok []
  fetchLogBody := fun _ => .ok "BODY"
  logsQuery := .ok []

/-- An active user fixture. -/
def alice : SFUser := ⟨"005A", "alice@example.com", "Ali Alice", true⟩

/-- A second active user whose name also contains "Ali". -/
def bob : SFUser := ⟨"005B", "bob@example.com", "Ali Bob", true⟩

/-- An inactive user fixture. -/
def carol : SFUser := ⟨"005C", "carol@example.com", "Carol Case", false⟩

/-! ### Helper lemmas on the embedded pipeline. -/

/-- User resolution issues only the one or two user queries, never a
mutating request. -/
theorem resolveUser_effects (env : Env) (username : String) :
    (resolveUser env username).1 = [Effect.queryUsersPrimary] ∨
    (resolveUser env username).1 =
      [Effect.queryUsersPrimary, Effect.queryUsersFallback] := by
  rcases hp : env.userQueryPrimary with e | us
  · left
    simp [resolveUser, hp]
  · rcases us with _ | ⟨u, rest⟩
    · rcases hf : env.userQueryFallback with e | vs
      · right
        simp [resolveUser, hp, hf]
      · rcases vs with _ | ⟨v1, _ | ⟨v2, vrest⟩⟩ <;> right <;>
          simp [resolveUser, hp, hf]
    · left
      simp [resolveUser, hp]

/-- The primary user query is always the first request resolution issues. -/
theorem resolveUser_first_effect (env : Env) (username : String) :
    ∃ t, (resolveUser env username).1 = Effect.queryUsersPrimary :: t := by
  rcases resolveUser_effects env username with h | h
  · exact ⟨[], h⟩
  · exact ⟨[Effect.queryUsersFallback], h⟩

/-- The number of TraceFlag creations among the issued requests. -/
def countCreates (effs : List Effect) : Nat :=
  effs.countP fun e => e.isCreateTF

@[simp] theorem countCreates_nil : countCreates [] = 0 := rfl

@[simp] theorem countCreates_cons (e : Effect) (l : List Effect) :
    countCreates (e :: l) =
      countCreates l + if e.isCreateTF then 1 else 0 :=
  List.countP_cons _ _ _

@[simp] theorem countCreates_append (l1 l2 : List Effect) :
    countCreates (l1 ++ l2) = countCreates l1 + countCreates l2 :=
  List.countP_append _ _ _

/-- Resolution issues no TraceFlag creation. -/
theorem resolveUser_no_create (env : Env) (username : String) :
    countCreates (resolveUser env username).1 = 0 := by
  rcases resolveUser_effects env username with h | h <;>
    simp [h, Effect.isCreateTF]

/-- Debug-level resolution issues no TraceFlag creation. -/
theorem resolveDebugLevel_no_create (env : Env) (logLevel : String) :
    countCreates (resolveDebugLevel env logLevel).1 = 0 := by
  unfold resolveDebugLevel
  rcases hd : env.debugLevelQuery with e | (_ | ⟨dlid, rest⟩)
  · simp [Effect.isCreateTF]
  · rcases hc : env.createDebugLevel with e | dlid <;>
      simp [Effect.isCreateTF]
  · simp [Effect.isCreateTF]

/-- The delete loop issues no TraceFlag creation. -/
theorem deleteLoop_no_create (env : Env) (ids : List String) :
    countCreates (deleteLoop env ids).1 = 0 := by
  induction ids with
  | nil => simp [deleteLoop]
  | cons i rest ih =>
    unfold deleteLoop
    rcases hd : env.deleteTraceFlag i with e | v
    · simp [Effect.isCreateTF]
    · rcases hr : deleteLoop env rest with ⟨effs, r⟩
      rw [hr] at ih
      rcases r with e | n <;> simp_all [Effect.isCreateTF]

/-- The patch loop issues no TraceFlag creation. -/
theorem patchLoop_no_create (env : Env) (p : TraceFlagPatch) (ids : List String) :
    countCreates (patchLoop env p ids).1 = 0 := by
  induction ids with
  | nil => simp [patchLoop]
  | cons i rest ih =>
    unfold patchLoop
    rcases hd : env.patchTraceFlag i p with e | v
    · simp [Effect.isCreateTF]
    · rcases hr : patchLoop env p rest with ⟨effs, r⟩
      rw [hr] at ih
      rcases r with e | n <;> simp_all [Effect.isCreateTF]

/-- When every DELETE succeeds the loop issues one DELETE per id, in
order, and counts them all. -/
theorem deleteLoop_all_ok (env : Env) (ids : List String)
    (h : ∀ i ∈ ids, env.deleteTraceFlag i = .ok ()) :
    deleteLoop env ids = (ids.map Effect.deleteTraceFlag, .ok ids.length) := by
  induction ids with
  | nil => simp [deleteLoop]
  | cons i rest ih =>
    have hi : env.deleteTraceFlag i = .ok () := h i (by simp)
    have hrest : ∀ j ∈ rest, env.deleteTraceFlag j = .ok () :=
      fun j hj => h j (by simp [hj])
    simp [deleteLoop, hi, ih hrest]

/-- The first failing DELETE aborts the loop: the ids after it are not
attempted, and the loop reports that DELETE's error. -/
theorem deleteLoop_first_error (env : Env) (pre : List String) (bad : String)
    (post : List String) (e : String)
    (hpre : ∀ i ∈ pre, env.deleteTraceFlag i = .ok ())
    (hbad : env.deleteTraceFlag bad = .error e) :
    deleteLoop env (pre ++ bad :: post) =
      (pre.map Effect.deleteTraceFlag ++ [Effect.deleteTraceFlag bad],
        .error e) := by
  induction pre with
  | nil => simp [deleteLoop, hbad]
  | cons i rest ih =>
    have hi : env.deleteTraceFlag i = .ok () := hpre i (by simp)
    have hrest : ∀ j ∈ rest, env.deleteTraceFlag j = .ok () :=
      fun j hj => hpre j (by simp [hj])
    simp [deleteLoop, hi, ih hrest]

/-- When every PATCH succeeds the fallback loop issues one PATCH per id,
in order, with the same body, and counts them all. -/
theorem patchLoop_all_ok (env : Env) (p : TraceFlagPatch) (ids : List String)
    (h : ∀ i ∈ ids, env.patchTraceFlag i p = .ok ()) :
    patchLoop env p ids = (ids.map (Effect.patchTraceFlag · p), .ok ids.length) := by
  induction ids with
  | nil => simp [patchLoop]
  | cons i rest ih =>
    have hi : env.patchTraceFlag i p = .ok () := h i (by simp)
    have hrest : ∀ j ∈ rest, env.patchTraceFlag j p = .ok () :=
      fun j hj => h j (by simp [hj])
    simp [patchLoop, hi, ih hrest]

/-- The first failing PATCH aborts the fallback loop with its error. -/
theorem patchLoop_first_error (env : Env) (p : TraceFlagPatch)
    (pre : List String) (bad : String) (post : List String) (e : String)
    (hpre : ∀ i ∈ pre, env.patchTraceFlag i p = .ok ())
    (hbad : env.patchTraceFlag bad p = .error e) :
    patchLoop env p (pre ++ bad :: post) =
      (pre.map (Effect.patchTraceFlag · p) ++ [Effect.patchTraceFlag bad p],
        .error e) := by
  induction pre with
  | nil => simp [patchLoop, hbad]
  | cons i rest ih =>
    have hi : env.patchTraceFlag i p = .ok () := hpre i (by simp)
    have hrest : ∀ j ∈ rest, env.patchTraceFlag j p = .ok () :=
      fun j hj => hpre j (by simp [hj])
    simp [patchLoop, hi, ih hrest]

/-- The enable branch issues at most one TraceFlag creation. -/
theorem enableOp_create_le_one (env : Env) (username logLevel : String)
    (expirationTime : Int) (u : SFUser) :
    countCreates (enableOp env username logLevel expirationTime u).1 ≤ 1 := by
  rcases htf : env.traceFlagQuery with e | flags
  · simp [enableOp, htf, Effect.isCreateTF]
  · rcases hdl : resolveDebugLevel env logLevel with ⟨dEffs, r⟩
    have hd := resolveDebugLevel_no_create env logLevel
    rw [hdl] at hd
    rcases r with e | dlid
    · simp [enableOp, htf, hdl, hd, Effect.isCreateTF]
    · rcases flags with _ | ⟨tf, tfs⟩
      · rcases hct : env.createTraceFlag
            ⟨u.id, dlid, "USER_DEBUG", env.now, env.now + 60 * expirationTime⟩
            with e | tfId <;>
          simp [enableOp, htf, hdl, hct, hd, Effect.isCreateTF]
      · rcases hpt : env.patchTraceFlag tf.id
            ⟨some (newExpirationOf env tf), some dlid, none, none⟩
            with e | v <;>
          simp [enableOp, htf, hdl, hpt, hd, Effect.isCreateTF]

/-- The disable branch issues no TraceFlag creation. -/
theorem disableOp_no_create (env : Env) (username : String) :
    countCreates (disableOp env username).1 = 0 := by
  rcases htf : env.traceFlagQuery with e | (_ | ⟨tf, tfs⟩)
  · simp [disableOp, htf, Effect.isCreateTF]
  · simp [disableOp, htf, Effect.isCreateTF]
  · rcases hdel : deleteLoop env (tf.id :: tfs.map SFTraceFlag.id) with ⟨dEffs, r⟩
    have hd := deleteLoop_no_create env (tf.id :: tfs.map SFTraceFlag.id)
    rw [hdel] at hd
    rcases r with e | n
    · rcases hpat : patchLoop env
          ⟨some (env.now + 300), none, none, none⟩
          (tf.id :: tfs.map SFTraceFlag.id) with ⟨pEffs, rp⟩
      have hp := patchLoop_no_create env
        ⟨some (env.now + 300), none, none, none⟩
        (tf.id :: tfs.map SFTraceFlag.id)
      rw [hpat] at hp
      rcases rp with e2 | n2 <;>
        simp [disableOp, htf, hdel, hpat, hd, hp, Effect.isCreateTF]
    · simp [disableOp, htf, hdel, hd, Effect.isCreateTF]

/-- The per-user listing issues no TraceFlag creation. -/
theorem retrieveLogs_no_create (env : Env) (username : String) (limit : Int) :
    countCreates (retrieveLogs env username limit).1 = 0 := by
  rcases hq : env.logsQuery with e | (_ | ⟨log, rest⟩)
  · simp [retrieveLogs, hq, Effect.isCreateTF]
  · simp [retrieveLogs, hq, Effect.isCreateTF]
  · rcases hr : renderLogBlocks env 0 (log :: rest) with e | blocks <;>
      simp [retrieveLogs, hq, hr, Effect.isCreateTF]

/-- The single-log retrieval issues no TraceFlag creation. -/
theorem retrieveById_no_create (env : Env) (lid : String) (includeBody : Bool) :
    countCreates (retrieveById env lid includeBody).1 = 0 := by
  rcases hq : env.logQueryById lid with e | (_ | ⟨log, rest⟩)
  · simp [retrieveById, hq, Effect.isCreateTF]
  · simp [retrieveById, hq, Effect.isCreateTF]
  · cases includeBody
    · rcases hf : formatLogDate env log with e | dateStr <;>
        simp [retrieveById, hq, hf, Effect.isCreateTF]
    · rcases hb : env.fetchLogBody log.id with e | body
      · simp [retrieveById, hq, hb, Effect.isCreateTF]
      · rcases hf : formatLogDate env log with e | dateStr <;>
          simp [retrieveById, hq, hb, hf, Effect.isCreateTF]

/-- The retrieve branch issues no TraceFlag creation. -/
theorem retrieveOp_no_create (env : Env) (username : String) (limit : Int)
    (logId : Option String) (includeBody : Bool) :
    countCreates (retrieveOp env username limit logId includeBody).1 = 0 := by
  unfold retrieveOp
  rcases logId with _ | lid
  · exact retrieveLogs_no_create env username limit
  · by_cases hl : lid = ""
    · simp [hl, retrieveLogs_no_create env username limit]
    · rcases hb : retrieveById env lid includeBody with ⟨effs, s⟩
      have := retrieveById_no_create env lid includeBody
      rw [hb] at this
      simpa [hl, hb] using this

/-- The whole dispatch issues at most one TraceFlag creation. -/
theorem dispatchOp_create_le_one (env : Env) (operationArg username : String)
    (logLevel : Option String) (expirationTime limit : Option Int)
    (logId : Option String) (includeBody : Bool) (u : SFUser) :
    countCreates (dispatchOp env operationArg username logLevel expirationTime
      limit logId includeBody u).1 ≤ 1 := by
  unfold dispatchOp
  split
  · exact enableOp_create_le_one env username (logLevel.getD "")
      (orDefault expirationTime 30) u
  · split
    · simp [disableOp_no_create env username]
    · split
      · simp [retrieveOp_no_create env username (orDefault limit 10) logId
          includeBody]
      · simp

/-- Filtering a single TraceFlag creation keeps it. -/
@[simp] theorem filter_creates_singleton (d : TraceFlagCreate) :
    (List.filter (fun e => e.isCreateTF) [Effect.createTraceFlag d]) =
      [Effect.createTraceFlag d] := rfl

/-- A request list without TraceFlag creations filters to none of them. -/
theorem filter_creates_eq_nil (l : List Effect) (h : countCreates l = 0) :
    (l.filter fun e => e.isCreateTF) = [] := by
  rw [countCreates, List.countP_eq_zero] at h
  simpa [List.filter_eq_nil_iff] using h

/-- C4: every call issues at most one TraceFlag creation; an enable call
finding no unexpired flag issues exactly one creation whose expiration is
now plus the requested minutes; an enable call finding one issues no
creation and, when the current expiration parses, extends it by 30 seconds
— never decreasing it. -/
theorem C4_at_most_one_trace_flag_creation (env : Env)
    (operationArg username : String) (logLevel : Option String)
    (expirationTime limit : Option Int) (logId : Option String)
    (includeBody : Bool) :
    countCreates (manage_debug_logs env operationArg username logLevel
      expirationTime limit logId includeBody).1 ≤ 1 ∧
    (∀ rEffs u ll dEffs dlid m,
      username ≠ "" → ll ≠ "" → env.connection = .ok () →
      resolveUser env username = (rEffs, .resolved u) →
      resolveDebugLevel env ll = (dEffs, .ok dlid) →
      env.traceFlagQuery = .ok [] →
      expirationTime = some m → m ≠ 0 →
      ((manage_debug_logs env "enable" username (some ll) expirationTime limit
          logId includeBody).1.filter fun e => e.isCreateTF) =
        [Effect.createTraceFlag
          ⟨u.id, dlid, "USER_DEBUG", env.now, env.now + 60 * m⟩]) ∧
    (∀ rEffs u ll dEffs dlid tf tfs,
      username ≠ "" → ll ≠ "" → env.connection = .ok () →
      resolveUser env username = (rEffs, .resolved u) →
      resolveDebugLevel env ll = (dEffs, .ok dlid) →
      env.traceFlagQuery = .ok (tf :: tfs) →
      countCreates (manage_debug_logs env "enable" username (some ll)
        expirationTime limit logId includeBody).1 = 0 ∧
      (∀ s t, tf.expirationDate = some s → s ≠ "" → env.parseIso s = some t →
        newExpirationOf env tf = t + 30 ∧ t ≤ newExpirationOf env tf)) := by
  refine ⟨?_, ?_, ?_⟩
  · unfold manage_debug_logs
    split
    · simp
    · split
      · simp
      · rcases hc : env.connection with e | v
        · simp
        · rcases hres : resolveUser env username with ⟨rEffs, r⟩
          have hr0 := resolveUser_no_create env username
          rw [hres] at hr0
          have hr1 : countCreates rEffs = 0 := hr0
          rcases r with e | msg | u
          · simp [hr1]
          · simp [hr1]
          · rcases hd : dispatchOp env operationArg username logLevel
                expirationTime limit logId includeBody u with ⟨oEffs, r2⟩
            have hd1 := dispatchOp_create_le_one env operationArg username
              logLevel expirationTime limit logId includeBody u
            rw [hd] at hd1
            have hd2 : countCreates oEffs ≤ 1 := hd1
            rcases r2 with e | s <;> simp [hd, hr1] <;> omega
  · intro rEffs u ll dEffs dlid m hun hll hconn hres hdl htf het hm
    subst het
    have hr0 := filter_creates_eq_nil rEffs (by
      have := resolveUser_no_create env username
      rw [hres] at this
      simpa using this)
    have hd0 := filter_creates_eq_nil dEffs (by
      have := resolveDebugLevel_no_create env ll
      rw [hdl] at this
      simpa using this)
    rcases hct : env.createTraceFlag
        ⟨u.id, dlid, "USER_DEBUG", env.now, env.now + 60 * m⟩ with e | tfId <;>
      simp [manage_debug_logs, hun, logLevelMissing, hll, hconn, hres,
        dispatchOp, enableOp, htf, hdl, orDefault, hm, hct, List.filter_append,
        hr0, hd0]
  · intro rEffs u ll dEffs dlid tf tfs hun hll hconn hres hdl htf
    have hr0 : countCreates rEffs = 0 := by
      have := resolveUser_no_create env username
      rw [hres] at this
      simpa using this
    have hd0 : countCreates dEffs = 0 := by
      have := resolveDebugLevel_no_create env ll
      rw [hdl] at this
      simpa using this
    constructor
    · rcases hpt : env.patchTraceFlag tf.id
          ⟨some (newExpirationOf env tf), some dlid, none, none⟩ with e | v <;>
        simp [manage_debug_logs, hun, logLevelMissing, hll, hconn, hres,
          dispatchOp, enableOp, htf, hdl, hpt, hr0, hd0, Effect.isCreateTF]
    · intro s t hs hsne hparse
      simp [newExpirationOf, hs, hsne, hparse]

end SalesforceMCP

namespace SalesforceMCP

/-- Resolution issues no TraceFlag deletion or patch. -/
theorem resolveUser_filter_dptf (env : Env) (username : String) :
    ((resolveUser env username).1.filter fun e => e.isDeleteOrPatchTF) = [] := by
  rcases resolveUser_effects env username with h | h <;> simp [h]

/-- Debug-level resolution issues no TraceFlag deletion or patch. -/
theorem resolveDebugLevel_filter_dptf (env : Env) (logLevel : String) :
    ((resolveDebugLevel env logLevel).1.filter fun e => e.isDeleteOrPatchTF)
      = [] := by
  unfold resolveDebugLevel
  rcases hd : env.debugLevelQuery with e | (_ | ⟨dlid, rest⟩)
  · simp
  · rcases hc : env.createDebugLevel with e | dlid <;> simp
  · simp

/-- C3: an enable call that finds a TraceFlag with a future expiration for
the resolved user issues exactly one TraceFlag update whose body holds only
ExpirationDate — the current expiration plus 30 seconds, or now plus 30
seconds when that field is missing, empty or unparsable — and DebugLevelId;
LogType and StartDate are absent from the body, and on success the returned
message is the "updated" report. -/
theorem C3_update_patch_fields (env : Env) (username ll : String)
    (expirationTime limit : Option Int) (logId : Option String)
    (includeBody : Bool) (rEffs dEffs : List Effect) (u : SFUser)
    (dlid : String) (tf : SFTraceFlag) (tfs : List SFTraceFlag)
    (hun : username ≠ "") (hll : ll ≠ "")
    (hconn : env.connection = .ok ())
    (hres : resolveUser env username = (rEffs, .resolved u))
    (hdl : resolveDebugLevel env ll = (dEffs, .ok dlid))
    (htf : env.traceFlagQuery = .ok (tf :: tfs)) :
    ((manage_debug_logs env "enable" username (some ll) expirationTime limit
        logId includeBody).1.filter fun e => e.isDeleteOrPatchTF) =
      [Effect.patchTraceFlag tf.id
        { expirationDate := some (newExpirationOf env tf),
          debugLevelId := some dlid, logType := none, startDate := none }] ∧
    (∀ s t, tf.expirationDate = some s → s ≠ "" → env.parseIso s = some t →
      newExpirationOf env tf = t + 30) ∧
    (tf.expirationDate = none → newExpirationOf env tf = env.now + 30) ∧
    (∀ s, tf.expirationDate = some s → s ≠ "" → env.parseIso s = none →
      newExpirationOf env tf = env.now + 30) ∧
    (env.patchTraceFlag tf.id
        { expirationDate := some (newExpirationOf env tf),
          debugLevelId := some dlid, logType := none, startDate := none }
          = .ok () →
      (manage_debug_logs env "enable" username (some ll) expirationTime limit
        logId includeBody).2 =
        updatedMsg username ll (env.formatTime (newExpirationOf env tf)) tf.id) := by
  have hr0 := resolveUser_filter_dptf env username
  rw [hres] at hr0
  have hd0 := resolveDebugLevel_filter_dptf env ll
  rw [hdl] at hd0
  refine ⟨?_, ?_, ?_, ?_, ?_⟩
  · rcases hpt : env.patchTraceFlag tf.id
        ⟨some (newExpirationOf env tf), some dlid, none, none⟩ with e | v <;>
      simp [manage_debug_logs, hun, logLevelMissing, hll, hconn, hres,
        dispatchOp, enableOp, htf, hdl, hpt, List.filter_append, hr0, hd0]
  · intro s t hs hsne hparse
    simp [newExpirationOf, hs, hsne, hparse]
  · intro hs
    simp [newExpirationOf, hs]
  · intro s hs hsne hparse
    simp [newExpirationOf, hs, hsne, hparse]
  · intro hpt
    simp [manage_debug_logs, hun, logLevelMissing, hll, hconn, hres,
      dispatchOp, enableOp, htf, hdl, hpt]

end SalesforceMCP

namespace SalesforceMCP

/-- Resolution issues no mutating request. -/
theorem resolveUser_filter_mutation (env : Env) (username : String) :
    ((resolveUser env username).1.filter fun e => e.isMutation) = [] := by
  rcases resolveUser_effects env username with h | h <;> simp [h]

/-- C5: a disable call that finds no TraceFlag with a future expiration
returns the no-active-logs message after issuing only the user query and
the trace-flag query — no DELETE, no PATCH, no mutation at all — so remote
state is unchanged and repeating the call gives the same outcome. -/
theorem C5_disable_noop_idempotent (env : Env) (username : String)
    (logLevel : Option String) (expirationTime limit : Option Int)
    (logId : Option String) (includeBody : Bool) (rEffs : List Effect)
    (u : SFUser)
    (hun : username ≠ "") (hconn : env.connection = .ok ())
    (hres : resolveUser env username = (rEffs, .resolved u))
    (htf : env.traceFlagQuery = .ok []) :
    manage_debug_logs env "disable" username logLevel expirationTime limit
        logId includeBody =
      (rEffs ++ [Effect.queryTraceFlags], noActiveLogsMsg username) ∧
    ((manage_debug_logs env "disable" username logLevel expirationTime limit
        logId includeBody).1.filter fun e => e.isMutation) = [] := by
  have hr0 := resolveUser_filter_mutation env username
  rw [hres] at hr0
  have hmain : manage_debug_logs env "disable" username logLevel
      expirationTime limit logId includeBody =
      (rEffs ++ [Effect.queryTraceFlags], noActiveLogsMsg username) := by
    simp [manage_debug_logs, hun, hconn, hres, dispatchOp, disableOp, htf]
  refine ⟨hmain, ?_⟩
  rw [hmain]
  simp [List.filter_append, hr0]

/-- C9: a single-log retrieval with include_body whose metadata query finds
the log but whose body fetch raises returns exactly the body-fetch error
rendering — the metadata already fetched is absent from the result. -/
theorem C9_body_fetch_error_exclusive (env : Env) (username : String)
    (logLevel : Option String) (expirationTime limit : Option Int)
    (rEffs : List Effect) (u : SFUser) (lid : String) (log : ApexLog)
    (rest : List ApexLog) (e : String)
    (hun : username ≠ "") (hconn : env.connection = .ok ())
    (hres : resolveUser env username = (rEffs, .resolved u))
    (hlid : lid ≠ "")
    (hq : env.logQueryById lid = .ok (log :: rest))
    (hb : env.fetchLogBody log.id = .error e) :
    manage_debug_logs env "retrieve" username logLevel expirationTime limit
        (some lid) true =
      (rEffs ++ [Effect.queryLogById lid, Effect.fetchLogBody log.id],
        errRetrieveBody e) := by
  simp [manage_debug_logs, hun, hconn, hres, dispatchOp, retrieveOp, hlid,
    retrieveById, hq, hb]

/-- C6: a disable call that finds unexpired TraceFlags deletes them in
order; the first failing DELETE abandons the remaining deletions, after
which every originally-found flag is patched to expire 5 minutes from now;
and when that fallback also fails, the surfaced message carries the
original deletion error, not the patch error. -/
theorem C6_disable_fallback_error_priority (env : Env) (username : String)
    (logLevel : Option String) (expirationTime limit : Option Int)
    (logId : Option String) (includeBody : Bool) (rEffs : List Effect)
    (u : SFUser) (tf0 : SFTraceFlag) (tfs0 : List SFTraceFlag)
    (hun : username ≠ "") (hconn : env.connection = .ok ())
    (hres : resolveUser env username = (rEffs, .resolved u))
    (htf : env.traceFlagQuery = .ok (tf0 :: tfs0)) :
    let ids := tf0.id :: tfs0.map SFTraceFlag.id
    let p5 : TraceFlagPatch :=
      { expirationDate := some (env.now + 300), debugLevelId := none,
        logType := none, startDate := none }
    ((∀ i ∈ ids, env.deleteTraceFlag i = .ok ()) →
      manage_debug_logs env "disable" username logLevel expirationTime limit
          logId includeBody =
        (rEffs ++ Effect.queryTraceFlags :: ids.map Effect.deleteTraceFlag,
          disabledRemovedMsg ids.length username)) ∧
    (∀ pre bad post e, ids = pre ++ bad :: post →
      (∀ i ∈ pre, env.deleteTraceFlag i = .ok ()) →
      env.deleteTraceFlag bad = .error e →
      ((∀ i ∈ ids, env.patchTraceFlag i p5 = .ok ()) →
        manage_debug_logs env "disable" username logLevel expirationTime limit
            logId includeBody =
          (rEffs ++ Effect.queryTraceFlags ::
              (pre.map Effect.deleteTraceFlag ++ [Effect.deleteTraceFlag bad] ++
                ids.map (Effect.patchTraceFlag · p5)),
            disabledExpireMsg ids.length username)) ∧
      (∀ ppre pbad ppost pe, ids = ppre ++ pbad :: ppost →
        (∀ i ∈ ppre, env.patchTraceFlag i p5 = .ok ()) →
        env.patchTraceFlag pbad p5 = .error pe →
        (manage_debug_logs env "disable" username logLevel expirationTime limit
            logId includeBody).2 = errDisable e)) := by
  intro ids p5
  constructor
  · intro hall
    have hdel := deleteLoop_all_ok env ids hall
    simp [manage_debug_logs, hun, hconn, hres, dispatchOp, disableOp, htf,
      hdel]
  · intro pre bad post e hsplit hpre hbad
    have hdel := deleteLoop_first_error env pre bad post e hpre hbad
    rw [← hsplit] at hdel
    constructor
    · intro hall
      have hpat := patchLoop_all_ok env p5 ids hall
      simp [manage_debug_logs, hun, hconn, hres, dispatchOp, disableOp, htf,
        hdel, hpat, List.append_assoc]
    · intro ppre pbad ppost pe hsplit2 hppre hpbad
      have hpat := patchLoop_first_error env p5 ppre pbad ppost pe hppre hpbad
      rw [← hsplit2] at hpat
      simp [manage_debug_logs, hun, hconn, hres, dispatchOp, disableOp, htf,
        hdel, hpat]

end SalesforceMCP

namespace SalesforceMCP

/-- C1 (amended): the disambiguation listing is produced exactly on the
fallback path — primary query empty, fallback query with at least two
records — and there the call stops after the two user queries, issuing no
mutating request. -/
theorem C1_fallback_disambiguation (env : Env) (operationArg username : String)
    (logLevel : Option String) (expirationTime limit : Option Int)
    (logId : Option String) (includeBody : Bool) (u1 u2 : SFUser)
    (rest : List SFUser)
    (hun : username ≠ "")
    (hguard : ¬(operationArg = "enable" ∧ logLevelMissing logLevel = true))
    (hconn : env.connection = .ok ())
    (hp : env.userQueryPrimary = .ok [])
    (hf : env.userQueryFallback = .ok (u1 :: u2 :: rest)) :
    manage_debug_logs env operationArg username logLevel expirationTime limit
        logId includeBody =
      ([Effect.queryUsersPrimary, Effect.queryUsersFallback],
        disambigMsg username (u1 :: u2 :: rest)) ∧
    ((manage_debug_logs env operationArg username logLevel expirationTime
        limit logId includeBody).1.filter fun e => e.isMutation) = [] := by
  have hmain : manage_debug_logs env operationArg username logLevel
      expirationTime limit logId includeBody =
      ([Effect.queryUsersPrimary, Effect.queryUsersFallback],
        disambigMsg username (u1 :: u2 :: rest)) := by
    simp [manage_debug_logs, hun, hguard, hconn, resolveUser, hp, hf]
  exact ⟨hmain, by rw [hmain]; simp⟩

/-- C1 is false as stated: a primary query matching two users does not stop
with a disambiguation listing — the call proceeds with the first record and
here issues mutating requests. -/
def envTwoPrimary : Env :=
  { baseEnv with userQueryPrimary := .ok [alice, bob] }

/-- C1 counterexample: with two primary matches the enable call mutates
remote state and its result is not the disambiguation listing. -/
theorem C1_counterexample :
    envTwoPrimary.userQueryPrimary = .ok [alice, bob] ∧
    alice ≠ bob ∧
    ((manage_debug_logs envTwoPrimary "enable" "Ali" (some "DEBUG") (some 30)
        (some 10) none false).1.any fun e => e.isMutation) = true ∧
    (manage_debug_logs envTwoPrimary "enable" "Ali" (some "DEBUG") (some 30)
        (some 10) none false).2 ≠
      disambigMsg "Ali" [alice, bob] := by
  refine ⟨rfl, by decide, rfl, by decide⟩

/-- C2 (amended): a resolution whose picked record is inactive returns the
inactive-user warning at once — the requested operation is not performed
and no request beyond the user queries is issued. -/
theorem C2_inactive_returns_warning_only (env : Env)
    (operationArg username : String) (logLevel : Option String)
    (expirationTime limit : Option Int) (logId : Option String)
    (includeBody : Bool) (u : SFUser) (rest : List SFUser)
    (hun : username ≠ "")
    (hguard : ¬(operationArg = "enable" ∧ logLevelMissing logLevel = true))
    (hconn : env.connection = .ok ())
    (hinact : u.isActive = false) :
    (env.userQueryPrimary = .ok (u :: rest) →
      manage_debug_logs env operationArg username logLevel expirationTime
          limit logId includeBody =
        ([Effect.queryUsersPrimary], inactiveWarning username)) ∧
    (env.userQueryPrimary = .ok [] → env.userQueryFallback = .ok [u] →
      manage_debug_logs env operationArg username logLevel expirationTime
          limit logId includeBody =
        ([Effect.queryUsersPrimary, Effect.queryUsersFallback],
          inactiveWarning username)) := by
  constructor
  · intro hp
    simp [manage_debug_logs, hun, hguard, hconn, resolveUser, hp, pickUser,
      hinact]
  · intro hp hf
    simp [manage_debug_logs, hun, hguard, hconn, resolveUser, hp, hf,
      pickUser, hinact]

/-- The C2 counterexample environment: one inactive primary match. -/
def envInactive : Env :=
  { baseEnv with userQueryPrimary := .ok [carol] }

/-- C2 counterexample: the enable call for an inactive user returns only
the warning; it performs no operation — not even the trace-flag query. -/
theorem C2_counterexample :
    envInactive.userQueryPrimary = .ok [carol] ∧
    carol.isActive = false ∧
    manage_debug_logs envInactive "enable" "carol@example.com" (some "DEBUG")
        (some 30) (some 10) none false =
      ([Effect.queryUsersPrimary], inactiveWarning "carol@example.com") := by
  refine ⟨rfl, rfl, by decide⟩

/-- C10 (amended): with an unknown operation the user queries still run
first, and the invalid-operation message is returned exactly when the
resolution procedure completes with an active picked user (the first
primary record, or the sole fallback record); the not-found, fallback
disambiguation and inactive-user responses each pre-empt it. -/
theorem C10_resolution_precedence (env : Env) (operationArg username : String)
    (logLevel : Option String) (expirationTime limit : Option Int)
    (logId : Option String) (includeBody : Bool)
    (hop1 : operationArg ≠ "enable") (hop2 : operationArg ≠ "disable")
    (hop3 : operationArg ≠ "retrieve")
    (hun : username ≠ "") (hconn : env.connection = .ok ()) :
    (∃ t, (manage_debug_logs env operationArg username logLevel expirationTime
        limit logId includeBody).1 = Effect.queryUsersPrimary :: t) ∧
    (∀ u rest, env.userQueryPrimary = .ok (u :: rest) → u.isActive = true →
      (manage_debug_logs env operationArg username logLevel expirationTime
        limit logId includeBody).2 = invalidOpMsg operationArg) ∧
    (env.userQueryPrimary = .ok [] → env.userQueryFallback = .ok [] →
      (manage_debug_logs env operationArg username logLevel expirationTime
        limit logId includeBody).2 = notFoundMsg username) ∧
    (∀ u1 u2 rest, env.userQueryPrimary = .ok [] →
      env.userQueryFallback = .ok (u1 :: u2 :: rest) →
      (manage_debug_logs env operationArg username logLevel expirationTime
        limit logId includeBody).2 = disambigMsg username (u1 :: u2 :: rest)) ∧
    (∀ u rest, env.userQueryPrimary = .ok (u :: rest) → u.isActive = false →
      (manage_debug_logs env operationArg username logLevel expirationTime
        limit logId includeBody).2 = inactiveWarning username) ∧
    (∀ u, env.userQueryPrimary = .ok [] → env.userQueryFallback = .ok [u] →
      u.isActive = true →
      (manage_debug_logs env operationArg username logLevel expirationTime
        limit logId includeBody).2 = invalidOpMsg operationArg) ∧
    (∀ u, env.userQueryPrimary = .ok [] → env.userQueryFallback = .ok [u] →
      u.isActive = false →
      (manage_debug_logs env operationArg username logLevel expirationTime
        limit logId includeBody).2 = inactiveWarning username) := by
  have hguard : ¬(operationArg = "enable" ∧ logLevelMissing logLevel = true) :=
    fun h => hop1 h.1
  refine ⟨?_, ?_, ?_, ?_, ?_, ?_, ?_⟩
  · obtain ⟨t, ht⟩ := resolveUser_first_effect env username
    rcases hres : resolveUser env username with ⟨rEffs, r⟩
    rw [hres] at ht
    have ht2 : rEffs = Effect.queryUsersPrimary :: t := ht
    rcases r with e | msg | u
    · exact ⟨t, by simp [manage_debug_logs, hun, hguard, hconn, hres, ht2]⟩
    · exact ⟨t, by simp [manage_debug_logs, hun, hguard, hconn, hres, ht2]⟩
    · rcases hd : dispatchOp env operationArg username logLevel expirationTime
          limit logId includeBody u with ⟨oEffs, r2⟩
      rcases r2 with e | s
      · exact ⟨t ++ oEffs,
          by simp [manage_debug_logs, hun, hguard, hconn, hres, hd, ht2]⟩
      · exact ⟨t ++ oEffs,
          by simp [manage_debug_logs, hun, hguard, hconn, hres, hd, ht2]⟩
  · intro u rest hp hact
    simp [manage_debug_logs, hun, hguard, hconn, resolveUser, hp, pickUser,
      hact, dispatchOp, hop1, hop2, hop3]
  · intro hp hf
    simp [manage_debug_logs, hun, hguard, hconn, resolveUser, hp, hf]
  · intro u1 u2 rest hp hf
    simp [manage_debug_logs, hun, hguard, hconn, resolveUser, hp, hf]
  · intro u rest hp hact
    simp [manage_debug_logs, hun, hguard, hconn, resolveUser, hp, pickUser,
      hact]
  · intro u hp hf hact
    simp [manage_debug_logs, hun, hguard, hconn, resolveUser, hp, hf,
      pickUser, hact, dispatchOp, hop1, hop2, hop3]
  · intro u hp hf hact
    simp [manage_debug_logs, hun, hguard, hconn, resolveUser, hp, hf,
      pickUser, hact]

/-- The C10 counterexample environment: two active primary matches. -/
def envTwoActive : Env :=
  { baseEnv with userQueryPrimary := .ok [alice, bob] }

/-- C10 counterexample: an unknown operation with two active primary
matches returns the invalid-operation message even though resolution did
not yield exactly one matching user. -/
theorem C10_counterexample :
    envTwoActive.userQueryPrimary = .ok [alice, bob] ∧
    alice.isActive = true ∧ bob.isActive = true ∧ alice ≠ bob ∧
    (manage_debug_logs envTwoActive "destroy" "Ali" none (some 30) (some 10)
        none false).2 = invalidOpMsg "destroy" := by
  refine ⟨rfl, rfl, rfl, by decide, by decide⟩

end SalesforceMCP

namespace SalesforceMCP

/-- When the connection is up the adapter executes exactly one query — the
built SOQL with the sanitised limit. -/
theorem query_records_executed (env : QEnv) (objectName : String)
    (fields : List String) (whereClause orderBy : Option String)
    (limit : Option Int) (h : env.connection = .ok ()) :
    (query_records env objectName fields whereClause orderBy limit).1 =
      [buildQuery objectName fields whereClause orderBy (sanitizeLimit limit)] := by
  rcases hq : env.runQuery
      (buildQuery objectName fields whereClause orderBy (sanitizeLimit limit))
      with e | results
  · simp [query_records, h, hq]
  · by_cases hr : results.records.isEmpty <;> simp [query_records, h, hq, hr]

/-- C7: the adapter clamps the limit into [1, 2000] (absent means 10), the
tool layer additionally clamps into [1, 100] before delegating, and the
clamped value is the LIMIT rendered into the executed query text. -/
theorem C7_limit_clamping (env : QEnv) (objectName : String)
    (fields : List String) (whereClause orderBy : Option String)
    (limit : Option Int) :
    (∀ l, limit = some l → l < 1 → sanitizeLimit limit = 1) ∧
    (∀ l, limit = some l → 2000 < l → sanitizeLimit limit = 2000) ∧
    (∀ l, limit = some l → 1 ≤ l → l ≤ 2000 → sanitizeLimit limit = l) ∧
    (∀ l, limit = some l → l < 1 → clampToolLimit limit = some 1) ∧
    (∀ l, limit = some l → 100 < l → clampToolLimit limit = some 100) ∧
    (limit = none → sanitizeLimit limit = 10 ∧ clampToolLimit limit = none) ∧
    (1 ≤ sanitizeLimit limit ∧ sanitizeLimit limit ≤ 2000) ∧
    (1 ≤ sanitizeLimit (clampToolLimit limit) ∧
      sanitizeLimit (clampToolLimit limit) ≤ 100) ∧
    (env.connection = .ok () →
      (query_records env objectName fields whereClause orderBy limit).1 =
        [buildQuery objectName fields whereClause orderBy
          (sanitizeLimit limit)]) ∧
    (env.connection = .ok () → pyStrip objectName ≠ "" → fields ≠ [] →
      (query_salesforce_records env objectName fields whereClause orderBy
          limit).1 =
        [buildQuery objectName fields whereClause orderBy
          (sanitizeLimit (clampToolLimit limit))]) ∧
    (∃ pre, buildQuery objectName fields whereClause orderBy
        (sanitizeLimit limit) =
      pre ++ " LIMIT " ++ toString (sanitizeLimit limit)) := by
  refine ⟨?_, ?_, ?_, ?_, ?_, ?_, ?_, ?_, ?_, ?_, ?_⟩
  · intro l hl hlt
    subst hl
    simp [sanitizeLimit, hlt]
  · intro l hl hgt
    subst hl
    have h1 : ¬l < 1 := by omega
    simp [sanitizeLimit, h1, hgt]
  · intro l hl h1 h2
    subst hl
    have h3 : ¬l < 1 := by omega
    have h4 : ¬l > 2000 := by omega
    simp [sanitizeLimit, h3, h4]
  · intro l hl hlt
    subst hl
    simp [clampToolLimit, hlt]
  · intro l hl hgt
    subst hl
    have h1 : ¬l < 1 := by omega
    simp [clampToolLimit, h1, hgt]
  · intro hl
    subst hl
    exact ⟨rfl, rfl⟩
  · rcases limit with _ | l
    · simp [sanitizeLimit]
    · simp only [sanitizeLimit]
      split
      · omega
      · split <;> omega
  · rcases limit with _ | l
    · simp [clampToolLimit, sanitizeLimit]
    · simp only [clampToolLimit]
      split
      · simp [sanitizeLimit]
      · split
        · simp [sanitizeLimit]
        · rename_i h1 h2
          simp only [sanitizeLimit]
          split
          · omega
          · split <;> omega
  · intro h
    exact query_records_executed env objectName fields whereClause orderBy
      limit h
  · intro h hobj hfields
    have hfe : fields.isEmpty = false := by
      simpa [List.isEmpty_iff] using hfields
    rcases hq : query_records env objectName fields whereClause orderBy
        (clampToolLimit limit) with ⟨qs, r⟩
    have hqs := query_records_executed env objectName fields whereClause
      orderBy (clampToolLimit limit) h
    rw [hq] at hqs
    have hqs2 : qs = [buildQuery objectName fields whereClause orderBy
        (sanitizeLimit (clampToolLimit limit))] := hqs
    rcases r with e | s <;>
      simp [query_salesforce_records, hobj, hfe, hq, hqs2]
  · exact ⟨_, rfl⟩

end SalesforceMCP

namespace SalesforceMCP

/-- The C8 counterexample environment: obtaining the shared connection
raises. -/
def qenvDown : QEnv :=
  { connection := .error "auth failed", runQuery := fun _ => .error "unreachable" }

/-- C8 counterexample: a connection failure is not caught inside
`query_records` — the adapter's result is the propagating exception, not an
error string (the `get_connection()` call stands before the `try`). -/
theorem C8_counterexample_connection_escapes :
    query_records qenvDown "Account" ["Name"] none none (some 5) =
      ([], .error "auth failed") := rfl

/-- C8 (amended): failures inside an adapter's try block are caught there
and rendered as strings, and the orchestrator catches even its connection
failure; but the record-query adapter's connection failure propagates out
of the adapter and is caught one level up, by the tool-layer wrapper — so
no exception crosses the tool's contract. -/
theorem C8_error_boundary (qenv : QEnv) (menv : Env) (objectName : String)
    (fields : List String) (whereClause orderBy : Option String)
    (limit : Option Int) (operationArg username : String)
    (logLevel : Option String) (expirationTime limit2 : Option Int)
    (logId : Option String) (includeBody : Bool) :
    (∀ e, qenv.connection = .ok () →
      qenv.runQuery (buildQuery objectName fields whereClause orderBy
        (sanitizeLimit limit)) = .error e →
      (query_records qenv objectName fields whereClause orderBy limit).2 =
        .ok (errQuery objectName e)) ∧
    (∀ e, qenv.connection = .error e →
      (query_records qenv objectName fields whereClause orderBy limit).2 =
        .error e) ∧
    (∀ e, qenv.connection = .error e → pyStrip objectName ≠ "" → fields ≠ [] →
      (query_salesforce_records qenv objectName fields whereClause orderBy
        limit).2 = errQuery objectName e) ∧
    (∀ e, menv.connection = .error e → username ≠ "" →
      ¬(operationArg = "enable" ∧ logLevelMissing logLevel = true) →
      manage_debug_logs menv operationArg username logLevel expirationTime
        limit2 logId includeBody = ([], errMain e)) := by
  refine ⟨?_, ?_, ?_, ?_⟩
  · intro e hc hq
    simp [query_records, hc, hq]
  · intro e hc
    simp [query_records, hc]
  · intro e hc hobj hfields
    have hfe : fields.isEmpty = false := by
      simpa [List.isEmpty_iff] using hfields
    simp [query_salesforce_records, hobj, hfe, query_records, hc]
  · intro e hc hun hguard
    simp [manage_debug_logs, hun, hguard, hc]

end SalesforceMCP

namespace SalesforceMCP

/-- Witness fixture for C1: empty primary query, two fallback matches. -/
def envW1 : Env :=
  { baseEnv with userQueryFallback := .ok [alice, bob] }

/-- C1 witness: the amended theorem at a concrete environment. -/
theorem C1_fallback_disambiguation_witness :
    manage_debug_logs envW1 "retrieve" "Ali" none (some 30) (some 10)
        none false =
      ([Effect.queryUsersPrimary, Effect.queryUsersFallback],
        disambigMsg "Ali" [alice, bob]) :=
  (C1_fallback_disambiguation envW1 "retrieve" "Ali" none (some 30) (some 10)
    none false alice bob [] (by decide) (by decide) rfl rfl rfl).1

/-- C2 witness: the amended theorem at a concrete environment. -/
theorem C2_inactive_returns_warning_only_witness :
    manage_debug_logs envInactive "retrieve" "Carol Case" none (some 30)
        (some 10) none false =
      ([Effect.queryUsersPrimary], inactiveWarning "Carol Case") :=
  (C2_inactive_returns_warning_only envInactive "retrieve" "Carol Case" none
    (some 30) (some 10) none false carol [] (by decide) (by decide) rfl
    rfl).1 rfl

/-- Witness fixture for C3: one active user, one unexpired flag whose
expiration string parses to instant 5000, one matching debug level. -/
def envW3 : Env :=
  { baseEnv with
    userQueryPrimary := .ok [alice]
    traceFlagQuery := .ok [⟨"7tf1", "dl0", some "EXPSTR"⟩]
    debugLevelQuery := .ok ["dl9"]
    parseIso := fun s => if s = "EXPSTR" then some 5000 else none }

/-- C3 witness: the update carries only ExpirationDate (5000 + 30) and
DebugLevelId, and the call reports the update. -/
theorem C3_update_patch_fields_witness :
    ((manage_debug_logs envW3 "enable" "alice@example.com" (some "DEBUG")
        (some 30) (some 10) none false).1.filter
      fun e => e.isDeleteOrPatchTF) =
      [Effect.patchTraceFlag "7tf1"
        { expirationDate := some 5030, debugLevelId := some "dl9",
          logType := none, startDate := none }] ∧
    (manage_debug_logs envW3 "enable" "alice@example.com" (some "DEBUG")
        (some 30) (some 10) none false).2 =
      updatedMsg "alice@example.com" "DEBUG" "<time 5030>" "7tf1" := by
  have h := C3_update_patch_fields envW3 "alice@example.com" "DEBUG"
    (some 30) (some 10) none false [Effect.queryUsersPrimary]
    [Effect.queryDebugLevels] alice "dl9" ⟨"7tf1", "dl0", some "EXPSTR"⟩ []
    (by decide) (by decide) rfl rfl rfl rfl
  exact ⟨h.1, h.2.2.2.2 rfl⟩

/-- Witness fixture for C4: one active user, no unexpired flag, one
matching debug level. -/
def envW4 : Env :=
  { baseEnv with
    userQueryPrimary := .ok [alice]
    debugLevelQuery := .ok ["dl9"] }

/-- C4 witness: at most one creation in general, and the creation path at a
concrete environment issues exactly one, expiring 45 minutes from now. -/
theorem C4_at_most_one_trace_flag_creation_witness :
    countCreates (manage_debug_logs envW4 "enable" "alice@example.com"
      (some "DEBUG") (some 45) (some 10) none false).1 ≤ 1 ∧
    ((manage_debug_logs envW4 "enable" "alice@example.com" (some "DEBUG")
        (some 45) (some 10) none false).1.filter fun e => e.isCreateTF) =
      [Effect.createTraceFlag
        ⟨"005A", "dl9", "USER_DEBUG", 1000, 1000 + 60 * 45⟩] := by
  have h := C4_at_most_one_trace_flag_creation envW4 "enable"
    "alice@example.com" (some "DEBUG") (some 45) (some 10) none false
  exact ⟨h.1, h.2.1 [Effect.queryUsersPrimary] alice "DEBUG"
    [Effect.queryDebugLevels] "dl9" 45 (by decide) (by decide) rfl rfl rfl
    rfl rfl (by decide)⟩

/-- Witness fixture for C5: one active user, no unexpired flag. -/
def envW5 : Env :=
  { baseEnv with userQueryPrimary := .ok [alice] }

/-- C5 witness: the disable call at a concrete environment with no active
flag returns the no-active-logs message and only the two queries. -/
theorem C5_disable_noop_idempotent_witness :
    manage_debug_logs envW5 "disable" "alice@example.com" none (some 30)
        (some 10) none false =
      ([Effect.queryUsersPrimary, Effect.queryTraceFlags],
        noActiveLogsMsg "alice@example.com") :=
  (C5_disable_noop_idempotent envW5 "alice@example.com" none (some 30)
    (some 10) none false [Effect.queryUsersPrimary] alice (by decide) rfl
    rfl rfl).1

/-- Witness fixture for C6: two unexpired flags; deleting the second and
patching the second both fail. -/
def envW6 : Env :=
  { baseEnv with
    userQueryPrimary := .ok [alice]
    traceFlagQuery := .ok [⟨"7tf1", "dl0", none⟩, ⟨"7tf2", "dl0", none⟩]
    deleteTraceFlag := fun i => if i = "7tf1" then .ok () else .error "DEL_FAIL"
    patchTraceFlag := fun i _ =>
      if i = "7tf2" then .error "PATCH_FAIL" else .ok () }

/-- C6 witness: when both the deletion and the patch fallback fail, the
surfaced message carries the deletion error, not the patch error. -/
theorem C6_disable_fallback_error_priority_witness :
    (manage_debug_logs envW6 "disable" "alice@example.com" none (some 30)
      (some 10) none false).2 = errDisable "DEL_FAIL" := by
  have h := C6_disable_fallback_error_priority envW6 "alice@example.com"
    none (some 30) (some 10) none false [Effect.queryUsersPrimary] alice
    ⟨"7tf1", "dl0", none⟩ [⟨"7tf2", "dl0", none⟩] (by decide) rfl rfl rfl
  have hpre : ∀ i ∈ ["7tf1"], envW6.deleteTraceFlag i = .ok () := by
    intro i hi
    simp only [List.mem_singleton] at hi
    subst hi
    rfl
  have hppre : ∀ i ∈ ["7tf1"],
      envW6.patchTraceFlag i
        ⟨some (envW6.now + 300), none, none, none⟩ = .ok () := by
    intro i hi
    simp only [List.mem_singleton] at hi
    subst hi
    rfl
  exact ((h.2 ["7tf1"] "7tf2" [] "DEL_FAIL" rfl hpre rfl).2 ["7tf1"] "7tf2"
    [] "PATCH_FAIL" rfl hppre rfl)

/-- Witness fixture for C7 and C8: a healthy query environment. -/
def qenvOk : QEnv :=
  { connection := .ok (), runQuery := fun _ => .ok ⟨0, []⟩ }

/-- C7 witness: the clamps at concrete limits, and the executed query of a
tool-layer call with limit 300 renders LIMIT 100. -/
theorem C7_limit_clamping_witness :
    sanitizeLimit (some 0) = 1 ∧
    sanitizeLimit (some 5000) = 2000 ∧
    clampToolLimit (some 300) = some 100 ∧
    sanitizeLimit none = 10 ∧
    (query_salesforce_records qenvOk "Account" ["Name"] none none
        (some 300)).1 =
      [buildQuery "Account" ["Name"] none none 100] := by
  refine ⟨?_, ?_, ?_, ?_, ?_⟩
  · exact (C7_limit_clamping qenvOk "Account" ["Name"] none none
      (some 0)).1 0 rfl (by decide)
  · exact (C7_limit_clamping qenvOk "Account" ["Name"] none none
      (some 5000)).2.1 5000 rfl (by decide)
  · exact (C7_limit_clamping qenvOk "Account" ["Name"] none none
      (some 300)).2.2.2.2.1 300 rfl (by decide)
  · exact ((C7_limit_clamping qenvOk "Account" ["Name"] none none
      none).2.2.2.2.2.1 rfl).1
  · exact (C7_limit_clamping qenvOk "Account" ["Name"] none none
      (some 300)).2.2.2.2.2.2.2.2.2.1 rfl (by decide) (by decide)

/-- Witness fixture for C8: the orchestrator's environment with the
connection down. -/
def menvDown : Env :=
  { baseEnv with connection := .error "auth failed" }

/-- C8 witness: the tool layer and the orchestrator render the connection
failure as error strings at concrete inputs. -/
theorem C8_error_boundary_witness :
    (query_salesforce_records qenvDown "Account" ["Name"] none none
      (some 5)).2 = errQuery "Account" "auth failed" ∧
    manage_debug_logs menvDown "retrieve" "bob@example.com" none (some 30)
        (some 10) none false = ([], errMain "auth failed") := by
  have h := C8_error_boundary qenvDown menvDown "Account" ["Name"] none none
    (some 5) "retrieve" "bob@example.com" none (some 30) (some 10) none false
  exact ⟨h.2.2.1 "auth failed" rfl (by decide) (by decide),
    h.2.2.2 "auth failed" rfl (by decide) (by decide)⟩

/-- Witness fixture for C9: the log metadata query finds the log, the body
fetch raises. -/
def envW9 : Env :=
  { baseEnv with
    userQueryPrimary := .ok [alice]
    logQueryById := fun _ =>
      .ok [⟨"07L1", some "Api", none, some "Success", some "123",
        "2024-01-01T00:00:00.000Z"⟩]
    fetchLogBody := fun _ => .error "BODY_FAIL" }

/-- C9 witness: the concrete retrieval returns only the body-fetch error. -/
theorem C9_body_fetch_error_exclusive_witness :
    manage_debug_logs envW9 "retrieve" "alice@example.com" none (some 30)
        (some 10) (some "07L1") true =
      ([Effect.queryUsersPrimary, Effect.queryLogById "07L1",
        Effect.fetchLogBody "07L1"], errRetrieveBody "BODY_FAIL") :=
  C9_body_fetch_error_exclusive envW9 "alice@example.com" none (some 30)
    (some 10) [Effect.queryUsersPrimary] alice "07L1"
    ⟨"07L1", some "Api", none, some "Success", some "123",
      "2024-01-01T00:00:00.000Z"⟩ [] "BODY_FAIL" (by decide) rfl rfl
    (by decide) rfl rfl

/-- Witness fixture for C10: one active primary match. -/
def envW10 : Env :=
  { baseEnv with userQueryPrimary := .ok [alice] }

/-- C10 witness: the unknown operation yields the invalid-operation message
once an active user resolves, and the not-found message pre-empts it when
nothing matches. -/
theorem C10_resolution_precedence_witness :
    (manage_debug_logs envW10 "destroy" "Ali" none (some 30) (some 10) none
      false).2 = invalidOpMsg "destroy" ∧
    (manage_debug_logs baseEnv "destroy" "Ali" none (some 30) (some 10) none
      false).2 = notFoundMsg "Ali" := by
  refine ⟨?_, ?_⟩
  · exact (C10_resolution_precedence envW10 "destroy" "Ali" none (some 30)
      (some 10) none false (by decide) (by decide) (by decide) (by decide)
      rfl).2.1 alice [] rfl rfl
  · exact (C10_resolution_precedence baseEnv "destroy" "Ali" none (some 30)
      (some 10) none false (by decide) (by decide) (by decide) (by decide)
      rfl).2.2.1 rfl rfl

end SalesforceMCP
